import Mathlib

/-!
Shallow embedding of the `iamtakagi/images` image-hosting server
(`app.ts`): the pagination engine, directory scanner, access gate,
filename generators, and the admin-gated route handlers, together with
theorems settling the specification claims about them.

Filesystem state is modelled as the list of directory entries (filename
paired with last-modified time) that `readdirSync`/`statSync` observe;
route handlers become pure functions from configuration, credentials,
request data and storage state to a response and a new storage state.
-/

namespace Images

/-! ## ECMAScript primitives used by the source -/

/-- The integer an ECMAScript engine feeds to `Array.prototype.slice` after
`ToIntegerOrInfinity`: a plain integer stays itself, `NaN` (modelled as
`none`) becomes `0`. -/
def jsToIntegerOrZero : Option Int → Int
  | none => 0
  | some i => i

/-- Endpoint clamping of `Array.prototype.slice`: a negative index counts
from the end of the array, and the result is clamped to `[0, n]`. -/
def jsClampIndex (n : Nat) (i : Int) : Nat :=
  (if i < 0 then max ((n : Int) + i) 0 else min i (n : Int)).toNat

/-- ECMAScript `Array.prototype.slice(s, e)` on a list: negative indices
count from the end, both endpoints are clamped to `[0, length]`, and the
elements in `[s', e')` are returned. -/
def jsSlice {α : Type} (l : List α) (s e : Int) : List α :=
  (l.take (jsClampIndex l.length e)).drop (jsClampIndex l.length s)

/-- ECMAScript `String.prototype.split` with a single-character separator,
written on the character list: `splitOnCharAux sep cs acc` accumulates the
current field (reversed) in `acc`. -/
def splitOnCharAux (sep : Char) : List Char → List Char → List String
  | [], acc => [⟨acc.reverse⟩]
  | c :: rest, acc =>
      if c = sep then ⟨acc.reverse⟩ :: splitOnCharAux sep rest []
      else splitOnCharAux sep rest (c :: acc)

/-- ECMAScript `s.split(sep)` for a one-character separator `sep`. -/
def jsSplitChar (sep : Char) (s : String) : List String :=
  splitOnCharAux sep s.data []

/-- Numeric value of a hexadecimal digit character. -/
def hexDigitValue (c : Char) : Nat :=
  if c.isDigit then c.toNat - 48
  else if 'a' ≤ c ∧ c ≤ 'f' then c.toNat - 87
  else c.toNat - 55

/-- True for `0-9`, `a-f`, `A-F`. -/
def isHexDigitChar (c : Char) : Bool :=
  c.isDigit || ('a' ≤ c && c ≤ 'f') || ('A' ≤ c && c ≤ 'F')

/-- Helper for `parseIntJs`: the signed value of the longest digit prefix
of `ds` in the given base, or `none` (ECMAScript `NaN`) when there is no
digit at all. -/
def parseDigits (sign : Int) (base : Nat) (valid : Char → Bool)
    (val : Char → Nat) (ds : List Char) : Option Int :=
  let digits := ds.takeWhile valid
  if digits.isEmpty then none
  else some (sign * (digits.foldl (fun acc c => acc * base + val c) 0 : Nat))

/-- ECMAScript `parseInt(s)` with no radix argument: skip leading
whitespace, read an optional sign, honour a `0x`/`0X` hexadecimal prefix,
and parse the longest digit prefix; `none` models the `NaN` result. -/
def parseIntJs (s : String) : Option Int :=
  let cs := s.data.dropWhile (·.isWhitespace)
  let signBody : Int × List Char :=
    match cs with
    | '-' :: rest => (-1, rest)
    | '+' :: rest => (1, rest)
    | _ => (1, cs)
  let sign := signBody.1
  let body := signBody.2
  match body with
  | '0' :: x :: rest =>
      if x = 'x' ∨ x = 'X' then
        parseDigits sign 16 isHexDigitChar hexDigitValue rest
      else
        parseDigits sign 10 (·.isDigit) (fun c => c.toNat - 48) body
  | _ => parseDigits sign 10 (·.isDigit) (fun c => c.toNat - 48) body

/-! ## Data model -/

/-- One entry of the storage directory as the scanner observes it: the
filename together with `statSync(...).mtime.getTime()` in milliseconds. -/
structure DirEntry where
  fileName : String
  time : Int
deriving DecidableEq

/-- The storage directory, the server's only durable state. -/
abbrev Storage := List DirEntry

/-- Environment-derived configuration, loaded once at process start. -/
structure Config where
  SITE_BASEURL : String
  ADMIN_USER : String
  ADMIN_PASS : String
deriving DecidableEq

/-- A credential pair presented via HTTP Basic authentication
(`basic-auth`'s `{name, pass}`). -/
structure Credentials where
  name : String
  pass : String
deriving DecidableEq

/-! ## Pagination engine (`paginate`, `PAGE_SIZE`, route pagination) -/

/-- Source constant `const PAGE_SIZE = 20`. -/
def PAGE_SIZE : Int := 20

/-- Source `paginate(array, size, index) = array.slice((index-1)*size,
index*size)`. -/
def paginate (array : List String) (size : Int) (index : Int) : List String :=
  jsSlice array ((index - 1) * size) (index * size)

/-- `Array.prototype.slice` fed ECMAScript numbers that may be `NaN`
(`none`): `ToIntegerOrInfinity` sends `NaN` to `0`. -/
def jsSliceNum (l : List String) (s e : Option Int) : List String :=
  jsSlice l (jsToIntegerOrZero s) (jsToIntegerOrZero e)

/-- ECMAScript subtraction of a constant, propagating `NaN`. -/
def jsSubNum (a : Option Int) (b : Int) : Option Int := a.map (· - b)

/-- ECMAScript multiplication by a constant, propagating `NaN`. -/
def jsMulNum (a : Option Int) (b : Int) : Option Int := a.map (· * b)

/-- `paginate` as evaluated by the route code when the index may be `NaN`
(`parseInt` of a non-numeric `page` query). -/
def paginateNum (array : List String) (size : Int) (index : Option Int) :
    List String :=
  jsSliceNum array (jsMulNum (jsSubNum index 1) size) (jsMulNum index size)

/-- The pagination record built by the listing routes. The `index` field
is an ECMAScript number (`none` models `NaN`). -/
structure PaginationView where
  index : Option Int
  size : Int
  prev : Option Int
  next : Option Int
  files : List String
deriving DecidableEq

/-- The route body computing `pagination` from the file list and an
integer index: `prev`/`next` are the neighbouring indices when the slice
there is non-empty, else `null`. -/
def computePagination (files : List String) (index : Int) : PaginationView :=
  let paginated := paginate files PAGE_SIZE index
  let prevPaginated := paginate files PAGE_SIZE (index - 1)
  let nextPaginated := paginate files PAGE_SIZE (index + 1)
  { index := some index
    size := PAGE_SIZE
    prev := if prevPaginated.length ≠ 0 then some (index - 1) else none
    next := if nextPaginated.length ≠ 0 then some (index + 1) else none
    files := paginated }

/-- Source line `const index = page && typeof page === "string" ?
parseInt(page) : 1`: a missing or empty (falsy) `page` query defaults to
`1`; otherwise `parseInt` runs, whose `NaN` result is `none`. -/
def pageIndexOf (page : Option String) : Option Int :=
  match page with
  | none => some 1
  | some s => if s = "" then some 1 else parseIntJs s

/-- The slice of files the `GET /` route renders for a given `page` query
parameter. -/
def indexRouteServedFiles (files : List String) (page : Option String) :
    List String :=
  paginateNum files PAGE_SIZE (pageIndexOf page)

/-! ## Directory scanner (`readSyncImageFiles`) -/

/-- The extensions accepted by the source regex
`/\.(gif|jpe?g|tiff?|png|webp|bmp|svg)$/i`, lowercased and including the
leading dot. -/
def allowedFormatSuffixes : List String :=
  [".gif", ".jpg", ".jpeg", ".tif", ".tiff", ".png", ".webp", ".bmp", ".svg"]

/-- `ALLOWED_FORMATS_REGEX.test(fileName)`: the lowercased filename ends
with one of the allowed extensions (the regex's `i` flag is the ASCII
lowercasing, its `$` anchor the suffix test). -/
def testAllowedFormat (fileName : String) : Bool :=
  allowedFormatSuffixes.any
    (fun suffix => suffix.data.isSuffixOf (fileName.data.map Char.toLower))

/-- The comparator `(a, b) => b.time - a.time` passed to
`Array.prototype.sort`, rendered as the total preorder `scanRel a b ↔
comparator(a, b) ≤ 0`. -/
def scanRel (a b : DirEntry) : Prop := b.time ≤ a.time

instance : DecidableRel scanRel := fun a b => Int.decLe b.time a.time

instance : IsTotal DirEntry scanRel := ⟨fun a b => le_total b.time a.time⟩

instance : IsTrans DirEntry scanRel :=
  ⟨fun _ _ _ h1 h2 => le_trans h2 h1⟩

/-- The filtered directory entries sorted by descending modification time
(the intermediate list inside `readSyncImageFiles` before the final
projection to filenames). ECMAScript `Array.prototype.sort` is a stable
sort consistent with the comparator, which determines its output uniquely
for the total preorder `scanRel`; the model uses a stable insertion
sort. -/
def sortedImageEntries (dir : Storage) : List DirEntry :=
  (dir.filter (fun e => testAllowedFormat e.fileName)).insertionSort scanRel

/-- Source `readSyncImageFiles()`: list the storage directory, keep names
matching the extension regex, pair each with its mtime, sort newest first,
project back to filenames. -/
def readSyncImageFiles (dir : Storage) : List String :=
  (sortedImageEntries dir).map (·.fileName)

/-! ## Access gate (`checkAuth`) and the 401 challenge -/

/-- `tsscmp`'s `compare`: a timing-safe string comparison whose boolean
result is plain string equality. -/
def timingSafeCompare (a b : String) : Bool := a == b

/-- Source `checkAuth(user, pass)`: both fields must match the configured
admin credentials. -/
def checkAuth (cfg : Config) (user pass : String) : Bool :=
  let valid := true
  let valid := timingSafeCompare user cfg.ADMIN_USER && valid
  let valid := timingSafeCompare pass cfg.ADMIN_PASS && valid
  valid

/-- The gate condition `!credentials || !checkAuth(credentials.name,
credentials.pass)` shared by the three admin routes, as its positive
form. -/
def authOk (cfg : Config) (creds : Option Credentials) : Bool :=
  match creds with
  | none => false
  | some c => checkAuth cfg c.name c.pass

/-- The challenge header value every rejected admin request carries. -/
def wwwAuthenticateChallenge : String :=
  "Basic realm=\"Access to the staging site\", charset=\"UTF-8\""

/-- The observable part of a route response: the HTTP status (`none` while
the handler falls through to `next()`), the `WWW-Authenticate` header if
set, and the JSON body `{imageUrl, fileName}` of `PUT /url2image`. -/
structure Resp where
  status : Option Nat := none
  wwwAuthenticate : Option String := none
  json : Option (String × String) := none
deriving DecidableEq

/-- The `401 Access denied` response with its Basic challenge, produced by
each admin route when the gate rejects. -/
def unauthorizedResponse : Resp :=
  { status := some 401, wwwAuthenticate := some wwwAuthenticateChallenge }

/-! ## Filename generators -/

/-- ECMAScript `originalname.split(".")[0]`: the characters before the
first dot (the whole string when there is none). -/
def jsSplitFirstField (s : String) : String :=
  ⟨s.data.takeWhile (· ≠ '.')⟩

/-- ECMAScript `originalname.match(/\..*$/)` (first match of a dot
followed by the rest of the line): the suffix starting at the first dot,
or `none` when the name has no dot. The model assumes the filename
contains no line terminator, which `.` would not cross. -/
def jsMatchDotToEnd (s : String) : Option String :=
  if (s.data.dropWhile (· ≠ '.')).isEmpty then none
  else some ⟨s.data.dropWhile (· ≠ '.')⟩

/-- The `multer.diskStorage` filename callback for a local upload:
`split(".")[0] + "-" + timestamp + match(/\..*$/)![0]`. The non-null
assertion makes the result `none` (callback throws) when the original
name has no dot. `ts` stands for
`moment(Date.now()).format("YYYYMMDDHHmmss")`. -/
def uploadDestFileName (originalname : String) (ts : String) :
    Option String :=
  (jsMatchDotToEnd originalname).map
    (fun ext => jsSplitFirstField originalname ++ "-" ++ ts ++ ext)

/-- The `PUT /url2image` destination name: `uuidv4() + "-" + timestamp +
"." + contentType.split("/")[1]`; an absent second field renders as the
string `"undefined"` in the template literal. -/
def url2imageDestFileName (uuid ts contentType : String) : String :=
  uuid ++ "-" ++ ts ++ "." ++ ((jsSplitChar '/' contentType).getD 1 "undefined")

/-! ## Admin-gated route handlers -/

/-- One part of a multipart upload as multer sees it. -/
structure UploadFile where
  originalname : String
  mimetype : String
deriving DecidableEq

/-- The mimetypes the multer `fileFilter` accepts. -/
def allowedMimetypes : List String :=
  ["image/png", "image/jpg", "image/jpeg", "image/gif", "image/webp",
   "image/bmp", "image/tiff", "image/svg+xml"]

/-- `POST /upload`: the Basic-auth gate, then the multer pipeline — a
disallowed mimetype raises `ExtensionError` (413); a filename callback
failure (original name without a dot) surfaces as a 500; otherwise every
file is stored under its generated name and the route redirects (302).
`ts` and `now` stand for the wall clock at the request. -/
def handleUpload (cfg : Config) (creds : Option Credentials) (st : Storage)
    (files : List UploadFile) (ts : String) (now : Int) : Resp × Storage :=
  if ¬ authOk cfg creds then (unauthorizedResponse, st)
  else if files.any (fun f => ¬ allowedMimetypes.contains f.mimetype) then
    ({ status := some 413 }, st)
  else if files.all (fun f => (uploadDestFileName f.originalname ts).isSome) then
    ({ status := some 302 },
      st ++ files.filterMap
        (fun f => (uploadDestFileName f.originalname ts).map (⟨·, now⟩)))
  else ({ status := some 500 }, st)

/-- `DELETE /delete?fileName=`: the Basic-auth gate, `next()` on a missing
query, 404 when `existsSync` fails, otherwise `unlinkSync` removes the
entry and the route answers 204. -/
def handleDelete (cfg : Config) (creds : Option Credentials) (st : Storage)
    (fileName : Option String) : Resp × Storage :=
  if ¬ authOk cfg creds then (unauthorizedResponse, st)
  else
    match fileName with
    | none => ({ status := none }, st)
    | some f =>
        if ¬ st.any (fun e => e.fileName == f) then ({ status := some 404 }, st)
        else ({ status := some 204 }, st.filter (fun e => e.fileName ≠ f))

/-- The remote response `axios` hands to the `PUT /url2image` handler
(`none` models a network failure landing in `.catch`). -/
structure RemoteResponse where
  contentType : String
deriving DecidableEq

/-- `PUT /url2image?url=`: the Basic-auth gate, `next()` on a missing
query, 500 for a failed fetch or a non-`image` content type, otherwise the
response body is streamed to the generated destination file and the route
answers 200 with `{imageUrl, fileName}`. `uuid`, `ts`, `now` stand for
`uuidv4()` and the wall clock. -/
def handleUrl2Image (cfg : Config) (creds : Option Credentials)
    (st : Storage) (url : Option String) (resp : Option RemoteResponse)
    (uuid ts : String) (now : Int) : Resp × Storage :=
  if ¬ authOk cfg creds then (unauthorizedResponse, st)
  else
    match url with
    | none => ({ status := none }, st)
    | some _ =>
        match resp with
        | none => ({ status := some 500 }, st)
        | some r =>
            if ¬ "image".data.isPrefixOf r.contentType.data then
              ({ status := some 500 }, st)
            else
              let destFileName := url2imageDestFileName uuid ts r.contentType
              ({ status := some 200
                 json := some
                   (cfg.SITE_BASEURL ++ "/" ++ destFileName, destFileName) },
                st ++ [⟨destFileName, now⟩])

/-! ## Claim-side definitions (formalising the specification's words) -/

/-- The allow-list exactly as the specification's claim words it: "png,
jpg/jpeg, gif, webp, bmp, tiff, svg — case-insensitive". -/
def specAllowList : List String :=
  ["png", "jpg", "jpeg", "gif", "webp", "bmp", "tiff", "svg"]

/-- The claim-side extension test: the filename's extension is in
`specAllowList`, case-insensitively. -/
def specExtAllowed (fileName : String) : Bool :=
  specAllowList.any
    (fun e => ("." ++ e).data.isSuffixOf (fileName.data.map Char.toLower))

/-- The claim-side upload filename: "the original name's base without its
extension, followed by '-', a timestamp, and the original extension" —
base and extension split at the last dot. -/
def specUploadFileName (originalname ts : String) : Option String :=
  let rev := originalname.data.reverse
  let extRev := rev.takeWhile (· ≠ '.')
  match rev.dropWhile (· ≠ '.') with
  | [] => none
  | _ :: baseRev =>
      some ((⟨baseRev.reverse⟩ : String) ++ "-" ++ ts ++ "." ++
        (⟨extRev.reverse⟩ : String))

/-- The claimed notion of a pair of strings differing in a single
character: equal lengths, one position where they differ, all other
positions equal. -/
def differsInOneChar (s t : String) : Prop :=
  s.data.length = t.data.length ∧
  ∃ i < s.data.length, s.data.get? i ≠ t.data.get? i ∧
    ∀ j < s.data.length, j ≠ i → s.data.get? j = t.data.get? j

instance (s t : String) : Decidable (differsInOneChar s t) := by
  unfold differsInOneChar; infer_instance

/-- A concrete 25-image listing used to instantiate the pagination
claims. -/
def ex25 : List String :=
  ["i01.png", "i02.png", "i03.png", "i04.png", "i05.png",
   "i06.png", "i07.png", "i08.png", "i09.png", "i10.png",
   "i11.png", "i12.png", "i13.png", "i14.png", "i15.png",
   "i16.png", "i17.png", "i18.png", "i19.png", "i20.png",
   "i21.png", "i22.png", "i23.png", "i24.png", "i25.png"]

/-- A concrete directory state with two allowed files sharing one
modification time, and a `.tif` name. -/
def tieDir : Storage := [⟨"a.tif", 5⟩, ⟨"b.png", 5⟩]

/-- A concrete configuration (the README's example values) used to
instantiate the gated routes. -/
def cfg0 : Config := ⟨"https://foo.com", "hoge", "foo"⟩

/-! ## Helper lemmas -/

theorem jsClampIndex_natCast (n a : ℕ) :
    jsClampIndex n (a : Int) = min a n := by
  unfold jsClampIndex
  rw [if_neg (by omega)]
  rw [← Nat.cast_min, Int.toNat_natCast]

theorem jsSlice_natCast {α : Type} (l : List α) (a b : ℕ) :
    jsSlice l (a : Int) (b : Int) = (l.drop a).take (b - a) := by
  unfold jsSlice
  rw [jsClampIndex_natCast, jsClampIndex_natCast]
  have htake : l.take (min b l.length) = l.take b := by
    rcases le_total b l.length with h | h
    · rw [min_eq_left h]
    · rw [min_eq_right h, List.take_length, List.take_of_length_le h]
  rw [htake]
  have hble : (l.take b).length ≤ l.length := by
    rw [List.length_take]; exact min_le_right _ _
  have hdrop : (l.take b).drop (min a l.length) = (l.take b).drop a := by
    rcases le_total a l.length with h | h
    · rw [min_eq_left h]
    · rw [min_eq_right h, List.drop_eq_nil_of_le hble,
        List.drop_eq_nil_of_le (le_trans hble h)]
  rw [hdrop, List.drop_take]

theorem paginate_natCast (files : List String) (S I' : ℕ) :
    paginate files (S : Int) ((I' + 1 : ℕ) : Int) =
      (files.drop (I' * S)).take S := by
  unfold paginate
  have h1 : (((I' + 1 : ℕ) : Int) - 1) * (S : Int) = ((I' * S : ℕ) : Int) := by
    push_cast; ring
  have h2 : ((I' + 1 : ℕ) : Int) * (S : Int) = (((I' + 1) * S : ℕ) : Int) := by
    push_cast; ring
  rw [h1, h2, jsSlice_natCast]
  congr 1
  rw [Nat.succ_mul, Nat.add_sub_cancel_left]

/-! ## Claim theorems -/

/-- C1: for every file list, page size `S` and 1-based index `I`,
`paginate` returns the slice `[(I-1)*S, I*S)` clamped to the list's
bounds; out-of-range indices yield an empty slice; on a 25-element list
with `S = 20`, index 1 returns the first 20 elements, index 2 the
remaining 5, and index 3 an empty slice. -/
theorem c1_paginate_is_clamped_slice :
    (∀ (files : List String) (S I : ℕ), 1 ≤ I →
      paginate files (S : Int) (I : Int) = (files.drop ((I - 1) * S)).take S) ∧
    (∀ (files : List String) (S I : ℕ), 1 ≤ I → files.length ≤ (I - 1) * S →
      paginate files (S : Int) (I : Int) = []) ∧
    (paginate ex25 20 1 = ex25.take 20 ∧ (paginate ex25 20 1).length = 20 ∧
      paginate ex25 20 2 = (ex25.drop 20).take 20 ∧
      (paginate ex25 20 2).length = 5 ∧ paginate ex25 20 3 = []) := by
  have main : ∀ (files : List String) (S I : ℕ), 1 ≤ I →
      paginate files (S : Int) (I : Int) = (files.drop ((I - 1) * S)).take S := by
    intro files S I hI
    obtain ⟨I', rfl⟩ : ∃ I', I = I' + 1 := ⟨I - 1, by omega⟩
    rw [Nat.add_sub_cancel, paginate_natCast]
  refine ⟨main, ?_, by decide⟩
  intro files S I hI hlen
  rw [main files S I hI, List.drop_eq_nil_of_le hlen, List.take_nil]

/-- Witness for C1 at a concrete input: page 2 of the 25-element listing
is its last five elements. -/
theorem c1_paginate_is_clamped_slice_witness :
    (1 : ℕ) ≤ 2 ∧
    paginate ex25 ((20 : ℕ) : Int) ((2 : ℕ) : Int) = (ex25.drop ((2 - 1) * 20)).take 20 ∧
    (ex25.drop ((2 - 1) * 20)).take 20 =
      ["i21.png", "i22.png", "i23.png", "i24.png", "i25.png"] :=
  ⟨by decide, c1_paginate_is_clamped_slice.1 ex25 20 2 (by decide), by decide⟩

/-- C2 counterexample: on a 21-file listing at requested index 0, the
slice at index -1 (`slice(-40, -20)`) is non-empty, so the code sets
`prev = -1` even though the index is ≤ 1 — the claimed biconditional
fails. -/
theorem c2_prev_next_counterexample :
    ¬ (((computePagination (List.replicate 21 "a.png") 0).prev = none) ↔
      ((0 : Int) ≤ 1 ∨
        paginate (List.replicate 21 "a.png") PAGE_SIZE (0 - 1) = [])) := by
  decide

/-- C2 amended: `prev` is absent exactly when the slice at `index - 1` is
empty, and `next` is absent exactly when the slice at `index + 1` is
empty (with no special case for `index ≤ 1`: negative-from-the-end slice
semantics can make the slice at a negative index non-empty). -/
theorem c2_prev_next_amended (files : List String) (index : Int) :
    ((computePagination files index).prev = none ↔
      paginate files PAGE_SIZE (index - 1) = []) ∧
    ((computePagination files index).next = none ↔
      paginate files PAGE_SIZE (index + 1) = []) := by
  have hprev : (computePagination files index).prev =
      if (paginate files PAGE_SIZE (index - 1)).length ≠ 0
      then some (index - 1) else none := rfl
  have hnext : (computePagination files index).next =
      if (paginate files PAGE_SIZE (index + 1)).length ≠ 0
      then some (index + 1) else none := rfl
  constructor
  · rw [hprev]
    rcases eq_or_ne (paginate files PAGE_SIZE (index - 1)) [] with hn | hn
    · simp [hn]
    · have hlen : (paginate files PAGE_SIZE (index - 1)).length ≠ 0 := by
        simpa [List.length_eq_zero] using hn
      simp [hlen, hn]
  · rw [hnext]
    rcases eq_or_ne (paginate files PAGE_SIZE (index + 1)) [] with hn | hn
    · simp [hn]
    · have hlen : (paginate files PAGE_SIZE (index + 1)).length ≠ 0 := by
        simpa [List.length_eq_zero] using hn
      simp [hlen, hn]

/-- C3 counterexample: on a directory holding `a.tif` and `b.png` with
equal modification times, the scan returns both — the times are not
strictly descending, and `a.tif` matches the source regex (`tiff?`) even
though `tif` is not in the claim's allow-list. -/
theorem c3_scanner_counterexample :
    readSyncImageFiles tieDir = ["a.tif", "b.png"] ∧
    specExtAllowed "a.tif" = false ∧
    ¬ ((sortedImageEntries tieDir).map (·.time)).Chain' (· > ·) := by
  refine ⟨by decide, by decide, ?_⟩
  have hmap : (sortedImageEntries tieDir).map (·.time) = [5, 5] := by decide
  rw [hmap]
  simp [List.chain'_cons]

/-- C3 amended: the scan returns exactly the filenames matching the
source regex (which also admits `tif`), ordered by non-strictly
descending modification time (ties keep the stable-sort order), and is a
deterministic function of the directory's names and times. -/
theorem c3_scanner_amended (dir : Storage) :
    (readSyncImageFiles dir).Perm
      ((dir.filter (fun e => testAllowedFormat e.fileName)).map (·.fileName)) ∧
    ((sortedImageEntries dir).map (·.time)).Chain' (· ≥ ·) ∧
    readSyncImageFiles dir = readSyncImageFiles dir := by
  refine ⟨?_, ?_, rfl⟩
  · exact (List.perm_insertionSort scanRel _).map _
  · have hs : List.Sorted scanRel (sortedImageEntries dir) :=
      List.sorted_insertionSort scanRel _
    have hp : ((sortedImageEntries dir).map (·.time)).Pairwise (· ≥ ·) := by
      refine List.Pairwise.map _ (fun a b h => h) hs
    exact List.chain'_iff_pairwise.mpr hp

theorem checkAuth_eq_true_iff (cfg : Config) (u p : String) :
    checkAuth cfg u p = true ↔ u = cfg.ADMIN_USER ∧ p = cfg.ADMIN_PASS := by
  simp [checkAuth, timingSafeCompare, Bool.and_eq_true, beq_iff_eq, and_comm]

theorem ne_of_differsInOneChar {s t : String} (h : differsInOneChar s t) :
    s ≠ t := by
  rintro rfl
  obtain ⟨-, i, -, hne, -⟩ := h
  exact hne rfl

/-- C4: the access gate accepts exactly the configured admin pair; a pair
differing from the configured values in a single character of either
field is rejected, and the gated request is answered with 401. -/
theorem c4_access_gate (cfg : Config) (u p : String) (st : Storage)
    (fn : Option String) :
    (checkAuth cfg u p = true ↔ (u = cfg.ADMIN_USER ∧ p = cfg.ADMIN_PASS)) ∧
    (differsInOneChar u cfg.ADMIN_USER →
      checkAuth cfg u p = false ∧
      (handleDelete cfg (some ⟨u, p⟩) st fn).1.status = some 401) ∧
    (differsInOneChar p cfg.ADMIN_PASS →
      checkAuth cfg u p = false ∧
      (handleDelete cfg (some ⟨u, p⟩) st fn).1.status = some 401) := by
  have hiff := checkAuth_eq_true_iff cfg u p
  have reject : checkAuth cfg u p = false →
      (handleDelete cfg (some ⟨u, p⟩) st fn).1.status = some 401 := by
    intro hfalse
    have hauth : authOk cfg (some ⟨u, p⟩) = false := hfalse
    simp [handleDelete, hauth, unauthorizedResponse]
  refine ⟨hiff, ?_, ?_⟩
  · intro hd
    have hfalse : checkAuth cfg u p = false := by
      rcases Bool.eq_false_or_eq_true (checkAuth cfg u p) with h | h
      · exact absurd (hiff.mp h).1 (ne_of_differsInOneChar hd)
      · exact h
    exact ⟨hfalse, reject hfalse⟩
  · intro hd
    have hfalse : checkAuth cfg u p = false := by
      rcases Bool.eq_false_or_eq_true (checkAuth cfg u p) with h | h
      · exact absurd (hiff.mp h).2 (ne_of_differsInOneChar hd)
      · exact h
    exact ⟨hfalse, reject hfalse⟩

/-- Witness for C4: `hogz` differs from the configured user `hoge` in one
character, and the gated delete answers 401. -/
theorem c4_access_gate_witness :
    differsInOneChar "hogz" "hoge" ∧
    checkAuth cfg0 "hogz" "foo" = false ∧
    (handleDelete cfg0 (some ⟨"hogz", "foo"⟩) [] (some "x.png")).1.status =
      some 401 :=
  ⟨by decide,
   ((c4_access_gate cfg0 "hogz" "foo" [] (some "x.png")).2.1 (by decide)).1,
   ((c4_access_gate cfg0 "hogz" "foo" [] (some "x.png")).2.1 (by decide)).2⟩

/-- C5: on an authenticated delete, a filename absent from storage gives
404 with the state unchanged, and a present filename gives 204 with the
file removed, so the subsequent listing no longer contains it. -/
theorem c5_delete_route (cfg : Config) (creds : Option Credentials)
    (st : Storage) (name : String) (hauth : authOk cfg creds = true) :
    (¬ name ∈ st.map (·.fileName) →
      (handleDelete cfg creds st (some name)).1.status = some 404 ∧
      (handleDelete cfg creds st (some name)).2 = st) ∧
    (name ∈ st.map (·.fileName) →
      (handleDelete cfg creds st (some name)).1.status = some 204 ∧
      ¬ name ∈ readSyncImageFiles (handleDelete cfg creds st (some name)).2) := by
  constructor
  · intro hmem
    have hany : st.any (fun e => e.fileName == name) = false := by
      rw [Bool.eq_false_iff]
      intro hc
      rw [List.any_eq_true] at hc
      obtain ⟨e, he, heq⟩ := hc
      exact hmem (List.mem_map.mpr ⟨e, he, by simpa using heq⟩)
    constructor <;> simp [handleDelete, hauth, hany]
  · intro hmem
    have hany : st.any (fun e => e.fileName == name) = true := by
      rw [List.any_eq_true]
      obtain ⟨e, he, heq⟩ := List.mem_map.mp hmem
      exact ⟨e, he, by simpa using heq⟩
    refine ⟨by simp [handleDelete, hauth, hany], ?_⟩
    have hst : (handleDelete cfg creds st (some name)).2 =
        st.filter (fun e => e.fileName ≠ name) := by
      simp [handleDelete, hauth, hany]
    rw [hst]
    intro hcontra
    unfold readSyncImageFiles sortedImageEntries at hcontra
    obtain ⟨e, he, heq⟩ := List.mem_map.mp hcontra
    have he2 := (List.perm_insertionSort scanRel _).mem_iff.mp he
    have he3 := (List.mem_filter.mp he2).1
    have hp := (List.mem_filter.mp he3).2
    simp at hp
    exact hp heq

/-- Witness for C5: deleting the present `b.png` from the two-file
directory answers 204 and drops it from the listing, while deleting an
absent `zzz.png` answers 404 and leaves storage intact. -/
theorem c5_delete_route_witness :
    authOk cfg0 (some ⟨"hoge", "foo"⟩) = true ∧
    (handleDelete cfg0 (some ⟨"hoge", "foo"⟩) tieDir (some "b.png")).1.status =
      some 204 ∧
    ¬ "b.png" ∈ readSyncImageFiles
      (handleDelete cfg0 (some ⟨"hoge", "foo"⟩) tieDir (some "b.png")).2 ∧
    (handleDelete cfg0 (some ⟨"hoge", "foo"⟩) tieDir (some "zzz.png")).1.status =
      some 404 ∧
    (handleDelete cfg0 (some ⟨"hoge", "foo"⟩) tieDir (some "zzz.png")).2 =
      tieDir :=
  ⟨by decide,
   ((c5_delete_route cfg0 (some ⟨"hoge", "foo"⟩) tieDir "b.png" (by decide)).2
     (by decide)).1,
   ((c5_delete_route cfg0 (some ⟨"hoge", "foo"⟩) tieDir "b.png" (by decide)).2
     (by decide)).2,
   ((c5_delete_route cfg0 (some ⟨"hoge", "foo"⟩) tieDir "zzz.png" (by decide)).1
     (by decide)).1,
   ((c5_delete_route cfg0 (some ⟨"hoge", "foo"⟩) tieDir "zzz.png" (by decide)).1
     (by decide)).2⟩

/-- C6: whenever the gate rejects (missing or invalid credentials), each
of the three admin routes answers 401 with the `WWW-Authenticate: Basic`
challenge and leaves the storage state untouched. -/
theorem c6_admin_gate_401 (cfg : Config) (creds : Option Credentials)
    (st : Storage) (files : List UploadFile) (ts : String) (now : Int)
    (fn : Option String) (url : Option String) (resp : Option RemoteResponse)
    (uuid : String) (hauth : authOk cfg creds = false) :
    handleUpload cfg creds st files ts now = (unauthorizedResponse, st) ∧
    handleDelete cfg creds st fn = (unauthorizedResponse, st) ∧
    handleUrl2Image cfg creds st url resp uuid ts now =
      (unauthorizedResponse, st) ∧
    unauthorizedResponse.status = some 401 ∧
    unauthorizedResponse.wwwAuthenticate = some wwwAuthenticateChallenge := by
  refine ⟨?_, ?_, ?_, rfl, rfl⟩ <;>
    simp [handleUpload, handleDelete, handleUrl2Image, hauth]

/-- Witness for C6: a request with no credentials is rejected by all
three admin routes without touching the two-file directory. -/
theorem c6_admin_gate_401_witness :
    authOk cfg0 none = false ∧
    handleUpload cfg0 none tieDir [] "20240101000000" 7 =
      (unauthorizedResponse, tieDir) ∧
    handleDelete cfg0 none tieDir (some "a.tif") =
      (unauthorizedResponse, tieDir) ∧
    handleUrl2Image cfg0 none tieDir (some "http://x/y")
      (some ⟨"image/png"⟩) "uid" "20240101000000" 7 =
      (unauthorizedResponse, tieDir) :=
  ⟨by decide,
   (c6_admin_gate_401 cfg0 none tieDir [] "20240101000000" 7 (some "a.tif")
     (some "http://x/y") (some ⟨"image/png"⟩) "uid" (by decide)).1,
   (c6_admin_gate_401 cfg0 none tieDir [] "20240101000000" 7 (some "a.tif")
     (some "http://x/y") (some ⟨"image/png"⟩) "uid" (by decide)).2.1,
   (c6_admin_gate_401 cfg0 none tieDir [] "20240101000000" 7 (some "a.tif")
     (some "http://x/y") (some ⟨"image/png"⟩) "uid" (by decide)).2.2.1⟩

/-- C7 counterexample: for the non-numeric `page` query `abc`,
`parseInt` yields `NaN` (not 1), and the route serves `slice(NaN, NaN)` —
the empty slice — instead of the non-empty first page. -/
theorem c7_default_index_counterexample :
    pageIndexOf (some "abc") ≠ some 1 ∧
    indexRouteServedFiles ["a.png"] (some "abc") = [] ∧
    indexRouteServedFiles ["a.png"] none = ["a.png"] := by
  refine ⟨by decide, by decide, by decide⟩

/-- C7 amended: a missing (or empty, hence falsy) `page` query defaults
the index to 1 and serves the first page; a non-empty non-numeric `page`
makes `parseInt` return `NaN`, and the served slice is empty rather than
the first page. -/
theorem c7_default_index_amended (files : List String) :
    (pageIndexOf none = some 1 ∧
      indexRouteServedFiles files none = paginate files PAGE_SIZE 1) ∧
    (pageIndexOf (some "") = some 1 ∧
      indexRouteServedFiles files (some "") = paginate files PAGE_SIZE 1) ∧
    (∀ s, s ≠ "" → parseIntJs s = none →
      pageIndexOf (some s) = none ∧
      indexRouteServedFiles files (some s) = []) := by
  have h0 : jsSlice files (0 : Int) (0 : Int) = [] := by
    have := jsSlice_natCast files 0 0
    simpa using this
  refine ⟨⟨rfl, rfl⟩, ⟨rfl, rfl⟩, ?_⟩
  intro s hs hnan
  have hidx : pageIndexOf (some s) = none := by
    simp [pageIndexOf, hs, hnan]
  refine ⟨hidx, ?_⟩
  show paginateNum files PAGE_SIZE (pageIndexOf (some s)) = []
  rw [hidx]
  simpa [paginateNum, jsSliceNum, jsSubNum, jsMulNum, jsToIntegerOrZero]
    using h0

/-- Witness for C7 at a concrete input: the query `xyz` parses to `NaN`
and the served slice is empty though two files exist. -/
theorem c7_default_index_amended_witness :
    "xyz" ≠ "" ∧ parseIntJs "xyz" = none ∧
    pageIndexOf (some "xyz") = none ∧
    indexRouteServedFiles ["p.png", "q.png"] (some "xyz") = [] :=
  ⟨by decide, by decide,
   ((c7_default_index_amended ["p.png", "q.png"]).2.2 "xyz" (by decide)
     (by decide)).1,
   ((c7_default_index_amended ["p.png", "q.png"]).2.2 "xyz" (by decide)
     (by decide)).2⟩

/-- C8 counterexample: for the multi-dot original name `a.b.png` the code
splits at the first dot and produces `a-<ts>.b.png`, not the claimed
`<base-without-extension>-<ts>.<extension>` = `a.b-<ts>.png`. -/
theorem c8_filename_counterexample :
    uploadDestFileName "a.b.png" "20240101000000" =
      some "a-20240101000000.b.png" ∧
    specUploadFileName "a.b.png" "20240101000000" =
      some "a.b-20240101000000.png" ∧
    uploadDestFileName "a.b.png" "20240101000000" ≠
      specUploadFileName "a.b.png" "20240101000000" := by
  refine ⟨by decide, by decide, by decide⟩

theorem takeWhile_ne_dot_append (b e : List Char)
    (hb : ∀ c ∈ b, c ≠ '.') (he : e.head? = some '.') :
    (b ++ e).takeWhile (fun c => c ≠ '.') = b ∧
    (b ++ e).dropWhile (fun c => c ≠ '.') = e := by
  induction b with
  | nil =>
    cases e with
    | nil => simp at he
    | cons h t =>
      have hh : h = '.' := by simpa using he
      subst hh
      constructor
      · simp [List.takeWhile_cons]
      · simp [List.dropWhile_cons]
  | cons c cs ih =>
    have hc : c ≠ '.' := hb c (List.mem_cons_self c cs)
    have ih2 := ih (fun x hx => hb x (List.mem_cons_of_mem c hx))
    have hpc : (fun x => decide (x ≠ '.')) c = true := by simp [hc]
    constructor
    · rw [List.cons_append, List.takeWhile_cons, if_pos hpc, ih2.1]
    · rw [List.cons_append, List.dropWhile_cons, if_pos hpc, ih2.2]

theorem splitOnCharAux_no_sep (sep : Char) :
    ∀ (cs acc : List Char), (∀ c ∈ cs, c ≠ sep) →
      splitOnCharAux sep cs acc = [⟨acc.reverse ++ cs⟩] := by
  intro cs
  induction cs with
  | nil => intro acc _; simp [splitOnCharAux]
  | cons c rest ih =>
    intro acc h
    have hc : c ≠ sep := h c (List.mem_cons_self c rest)
    rw [splitOnCharAux, if_neg hc, ih (c :: acc) (fun x hx => h x (List.mem_cons_of_mem c hx))]
    congr 2
    simp

/-- C8 amended: for a local upload, the destination filename is the
portion of the original name before its first dot, `-`, the timestamp,
then the original name's suffix from the first dot on (for a
single-extension name this is base, `-`, timestamp, extension); for a
remote fetch it is the unique id, `-`, the timestamp, `.`, and the
extension taken from the `image/...` content type. -/
theorem c8_filename_amended :
    (∀ (b e ts : String), (∀ c ∈ b.data, c ≠ '.') →
      e.data.head? = some '.' →
      uploadDestFileName (b ++ e) ts = some (b ++ "-" ++ ts ++ e)) ∧
    (∀ (uuid ts ext : String), (∀ c ∈ ext.data, c ≠ '/') →
      url2imageDestFileName uuid ts ("image/" ++ ext) =
        uuid ++ "-" ++ ts ++ "." ++ ext) := by
  constructor
  · intro b e ts hb he
    obtain ⟨ht, hd⟩ := takeWhile_ne_dot_append b.data e.data hb he
    have hdata : (b ++ e).data = b.data ++ e.data := rfl
    have hne : e.data.isEmpty = false := by
      cases hed : e.data with
      | nil => rw [hed] at he; simp at he
      | cons h t => rfl
    unfold uploadDestFileName jsMatchDotToEnd jsSplitFirstField
    rw [hdata, ht, hd, hne]
    rfl
  · intro uuid ts ext hext
    have hsteps : jsSplitChar '/' ("image/" ++ ext) =
        "image" :: splitOnCharAux '/' ext.data [] := rfl
    unfold url2imageDestFileName
    rw [hsteps, splitOnCharAux_no_sep '/' ext.data [] hext]
    rfl

/-- Witness for C8 at concrete inputs: `photo` + `.jpg` produces
`photo-<ts>.jpg`, and a fetched `image/png` produces `uid-<ts>.png`. -/
theorem c8_filename_amended_witness :
    (∀ c ∈ "photo".data, c ≠ '.') ∧ ".jpg".data.head? = some '.' ∧
    (∀ c ∈ "png".data, c ≠ '/') ∧
    uploadDestFileName ("photo" ++ ".jpg") "20240101000000" =
      some ("photo" ++ "-" ++ "20240101000000" ++ ".jpg") ∧
    url2imageDestFileName "uid" "20240101000000" ("image/" ++ "png") =
      "uid" ++ "-" ++ "20240101000000" ++ "." ++ "png" :=
  ⟨by decide, by decide, by decide,
   c8_filename_amended.1 "photo" ".jpg" "20240101000000" (by decide) (by decide),
   c8_filename_amended.2 "uid" "20240101000000" "png" (by decide)⟩

/-- C9: on an authenticated remote fetch whose response arrived, a
content type not beginning with `image` yields 500 and an unchanged
storage state, while `image/png` yields 200 with the
`{imageUrl, fileName}` body and the destination file stored. -/
theorem c9_url2image_route (cfg : Config) (creds : Option Credentials)
    (st : Storage) (u : String) (r : RemoteResponse) (uuid ts : String)
    (now : Int) (hauth : authOk cfg creds = true) :
    ("image".data.isPrefixOf r.contentType.data = false →
      (handleUrl2Image cfg creds st (some u) (some r) uuid ts now).1.status =
        some 500 ∧
      (handleUrl2Image cfg creds st (some u) (some r) uuid ts now).2 = st) ∧
    (r.contentType = "image/png" →
      (handleUrl2Image cfg creds st (some u) (some r) uuid ts now).1.status =
        some 200 ∧
      (handleUrl2Image cfg creds st (some u) (some r) uuid ts now).1.json =
        some (cfg.SITE_BASEURL ++ "/" ++ (uuid ++ "-" ++ ts ++ "." ++ "png"),
          uuid ++ "-" ++ ts ++ "." ++ "png") ∧
      (uuid ++ "-" ++ ts ++ "." ++ "png") ∈
        ((handleUrl2Image cfg creds st (some u) (some r) uuid ts now).2.map
          (·.fileName))) := by
  constructor
  · intro himg
    constructor <;> simp [handleUrl2Image, hauth, himg]
  · intro hct
    rcases r with ⟨ct⟩
    simp only at hct
    subst hct
    have himg : ("image".data.isPrefixOf "image/png".data) = true := by decide
    have hdest : url2imageDestFileName uuid ts "image/png" =
        uuid ++ "-" ++ ts ++ "." ++ "png" := rfl
    refine ⟨?_, ?_, ?_⟩ <;>
      simp [handleUrl2Image, hauth, himg, hdest]

/-- Witness for C9: with valid credentials, fetching a `text/html`
response answers 500, and an `image/png` response answers 200 and stores
`uid-20240101000000.png`. -/
theorem c9_url2image_route_witness :
    authOk cfg0 (some ⟨"hoge", "foo"⟩) = true ∧
    ("image".data.isPrefixOf ("text/html" : String).data) = false ∧
    (handleUrl2Image cfg0 (some ⟨"hoge", "foo"⟩) [] (some "http://x/y")
      (some ⟨"text/html"⟩) "uid" "20240101000000" 7).1.status = some 500 ∧
    (handleUrl2Image cfg0 (some ⟨"hoge", "foo"⟩) [] (some "http://x/y")
      (some ⟨"image/png"⟩) "uid" "20240101000000" 7).1.status = some 200 ∧
    ("uid" ++ "-" ++ "20240101000000" ++ "." ++ "png") ∈
      ((handleUrl2Image cfg0 (some ⟨"hoge", "foo"⟩) [] (some "http://x/y")
        (some ⟨"image/png"⟩) "uid" "20240101000000" 7).2.map (·.fileName)) :=
  ⟨by decide, by decide,
   ((c9_url2image_route cfg0 (some ⟨"hoge", "foo"⟩) [] "http://x/y"
     ⟨"text/html"⟩ "uid" "20240101000000" 7 (by decide)).1 (by decide)).1,
   ((c9_url2image_route cfg0 (some ⟨"hoge", "foo"⟩) [] "http://x/y"
     ⟨"image/png"⟩ "uid" "20240101000000" 7 (by decide)).2 rfl).1,
   ((c9_url2image_route cfg0 (some ⟨"hoge", "foo"⟩) [] "http://x/y"
     ⟨"image/png"⟩ "uid" "20240101000000" 7 (by decide)).2 rfl).2.2⟩

theorem mem_dot_iff_dropWhile_ne_nil (l : List Char) :
    (l.dropWhile (fun c => c ≠ '.') ≠ []) ↔ '.' ∈ l := by
  induction l with
  | nil => simp
  | cons c cs ih =>
    by_cases hc : c = '.'
    · subst hc
      simp [List.dropWhile_cons]
    · rw [List.dropWhile_cons, if_pos (by simpa using hc), ih]
      constructor
      · intro hm; exact List.mem_cons_of_mem c hm
      · intro hm
        rcases List.mem_cons.mp hm with h1 | h1
        · exact absurd h1.symm hc
        · exact h1

theorem jsMatchDotToEnd_isSome (s : String) :
    (jsMatchDotToEnd s).isSome = true ↔ '.' ∈ s.data := by
  rw [← mem_dot_iff_dropWhile_ne_nil s.data]
  unfold jsMatchDotToEnd
  rcases eq_or_ne (s.data.dropWhile (fun c => c ≠ '.')) [] with h | h
  · rw [h]; simp
  · have hE : (s.data.dropWhile (fun c => c ≠ '.')).isEmpty = false := by
      rw [Bool.eq_false_iff]
      intro hc
      exact h (List.isEmpty_iff.mp hc)
    simp [hE, h]

/-- C10: the upload filename generator produces a name exactly when the
uploaded file's original name contains a dot; for a dotless name the
non-null assertion on the regex match fails and the error branch is
reached instead. -/
theorem c10_upload_filename_requires_dot :
    (∀ (originalname ts : String),
      (uploadDestFileName originalname ts).isSome = true ↔
        '.' ∈ originalname.data) ∧
    uploadDestFileName "noext" "20240101000000" = none := by
  refine ⟨?_, by decide⟩
  intro originalname ts
  rw [← jsMatchDotToEnd_isSome originalname]
  unfold uploadDestFileName
  cases jsMatchDotToEnd originalname <;> simp

end Images
